import Mathlib

/-!
# Toggle (src/toggle.js): a shallow embedding

The file embeds the three parts of `src/toggle.js`

* `escPress`      (lines 3-17),
* `clickOutside`  (lines 19-39),
* `class Toggle`  (lines 41-162),

over an explicit model of the part of the DOM the code touches: elements
with a class list and attributes, parent chains of event targets, the click
listeners of elements, the `keyup` and `click` listeners of `document`, and
the console.  A JavaScript exception is an `Except.error`.
-/

namespace ToggleJs

/-! ## The DOM the code runs against -/

/-- Identity of a DOM node: `a === b` on nodes is equality of identities. -/
abbrev NodeId := Nat

/-- The exceptions the code can raise. -/
inductive Fault where
  /-- Property access or call on `null`. -/
  | typeError
  /-- `classList.add("")`, `classList.remove("")`, or a selector that does not parse. -/
  | syntaxError
  /-- `classList.add` / `classList.remove` of a token with ASCII whitespace. -/
  | invalidCharacterError
  deriving DecidableEq, Repr

/-- An event target with its `parentNode` pointers: `root` has `parentNode === null`.
Every value is a finite parent chain. -/
inductive Node where
  | root (ident : NodeId)
  | child (ident : NodeId) (parentNode : Node)
  deriving DecidableEq, Repr

/-- Identity of the node itself. -/
def Node.ident : Node → NodeId
  | .root i => i
  | .child i _ => i

/-- The node, its parent, its parent's parent, ... up to the node with no parent. -/
def Node.chain : Node → List NodeId
  | .root i => [i]
  | .child i p => i :: p.chain

/-- An element: its `classList` tokens and its other attributes. -/
structure Element where
  classList : List String
  attributes : String → Option String

/-- A `keyup` event; only `event.code` is read. -/
structure KeyboardEvent where
  code : String

/-- A `click` event; only `event.target` is read. -/
structure MouseEvent where
  target : Node

/-- ASCII whitespace of the DOM standard: TAB, LF, FF, CR, SPACE. -/
def isAsciiWhitespace (c : Char) : Bool :=
  c.toNat = 9 || c.toNat = 10 || c.toNat = 12 || c.toNat = 13 || c.toNat = 32

/-- Token validation of `DOMTokenList.add` and `DOMTokenList.remove`. -/
def DOMTokenList.validate (token : String) : Except Fault Unit :=
  if token = "" then .error .syntaxError
  else if token.toList.any isAsciiWhitespace then .error .invalidCharacterError
  else .ok ()

/-- The method `classList.contains(token)`. -/
def DOMTokenList.contains (tokens : List String) (token : String) : Bool :=
  decide (token ∈ tokens)

/-- The method `classList.add(token)`. -/
def DOMTokenList.add (tokens : List String) (token : String) : Except Fault (List String) :=
  match DOMTokenList.validate token with
  | .error e => .error e
  | .ok _ => .ok (if token ∈ tokens then tokens else tokens ++ [token])

/-- The method `classList.remove(token)`. -/
def DOMTokenList.remove (tokens : List String) (token : String) : Except Fault (List String) :=
  match DOMTokenList.validate token with
  | .error e => .error e
  | .ok _ => .ok (tokens.filter (fun t => decide (t ≠ token)))

/-- The method `element.hasAttribute(name)`. -/
def Element.hasAttribute (e : Element) (name : String) : Bool :=
  (e.attributes name).isSome

/-- The method `element.setAttribute(name, value)`. -/
def Element.setAttribute (e : Element) (name value : String) : Element :=
  { e with attributes := fun k => if k = name then some value else e.attributes k }

/-- The getter `element.id`: the `id` attribute, or the empty string. -/
def Element.id (e : Element) : String :=
  (e.attributes "id").getD ""

/-- The getter `element.dataset.id`: the `data-id` attribute, or `undefined`. -/
def Element.datasetId (e : Element) : Option String :=
  e.attributes "data-id"

/-- String conversion of a value that is a string or `undefined`, as in a
template literal or an assignment to `element.id`. -/
def jsString : Option String → String
  | some s => s
  | none => "undefined"

/-- The method `String.prototype.toLowerCase`, on the ASCII letters.  A string
lower-cases to `"escape"` under the full Unicode mapping exactly when it does
under this one: no character outside `A`-`Z` lower-cases to one of the
letters of `escape`. -/
def toLowerCase (s : String) : String :=
  String.mk (s.toList.map Char.toLower)

/-! ## escPress and clickOutside: the listener bodies

The bodies are generic in the state `σ` the callback acts on. -/

/-- Body of `fn` in `escPress` (lines 4-10). -/
def escPress.fn {σ : Type} (callback : σ → Except Fault σ) (event : KeyboardEvent)
    (s : σ) : Except Fault σ :=
  if toLowerCase event.code ≠ "escape" then .ok s
  else callback s

/-- The `for ... of elements` loop of line 24-26: is `target === element` for
some member of `elements`?  A member may be `null`. -/
def clickOutside.matches (elements : List (Option NodeId)) (target : NodeId) : Bool :=
  elements.any (fun element => decide (some target = element))

/-- The `do ... while (target)` loop of lines 23-29: `true` when the loop is
left by the `return` of line 25, `false` when it ends with `target` null. -/
def clickOutside.walk (elements : List (Option NodeId)) : Node → Bool
  | .root i => clickOutside.matches elements i
  | .child i p => clickOutside.matches elements i || clickOutside.walk elements p

/-- Body of `fn` in `clickOutside` (lines 20-32). -/
def clickOutside.fn {σ : Type} (elements : List (Option NodeId))
    (callback : σ → Except Fault σ) (event : MouseEvent) (s : σ) : Except Fault σ :=
  if clickOutside.walk elements event.target then .ok s
  else callback s

/-! ## The controller and the world it lives in -/

/-- The three methods bound in the constructor (lines 57-59). -/
inductive Method where
  | toggle | toggleOn | toggleOff
  deriving DecidableEq, Repr

/-- A function registered for `keyup`: the closure `fn` made by one call of
`escPress`; `closure` is its identity. -/
inductive KeyupListener where
  | escPressFn (closure : Nat) (callback : Method)
  deriving DecidableEq, Repr

/-- A function registered for `click`: the bound `this.toggle`, or the closure
`fn` made by one call of `clickOutside`. -/
inductive ClickListener where
  | boundToggle
  | clickOutsideFn (closure : Nat) (elements : List (Option NodeId)) (callback : Method)
  deriving DecidableEq, Repr

/-- Field `this.options`. -/
structure Options where
  escPress : Bool
  clickOutside : Bool
  deriving DecidableEq, Repr

/-- Field `this.classNames`. -/
structure ClassNames where
  init : String
  toggle : String
  deriving DecidableEq, Repr

/-- The `options` argument of the constructor: each key present or absent. -/
structure OptionsArg where
  escPress : Option Bool := none
  clickOutside : Option Bool := none

/-- The `classNames` argument of the constructor: each key present or absent. -/
structure ClassNamesArg where
  init : Option String := none
  toggle : Option String := none

/-- The fields of a `Toggle` instance.  A disposer returned by `escPress` or
`clickOutside` is kept as the listener it removes. -/
structure Toggle where
  element : NodeId
  options : Options
  classNames : ClassNames
  targetElement : Option NodeId
  escPressCleanup : Option KeyupListener
  clickOutsideCleanup : Option ClickListener

/-- The document with one controller: elements, the selector engine, the
registered listeners, the console, the next closure identity, and `this`. -/
structure World where
  elements : NodeId → Element
  querySelector : String → Except Fault (Option NodeId)
  elementClick : NodeId → List ClickListener
  documentKeyup : List KeyupListener
  documentClick : List ClickListener
  console : List String
  nextClosure : Nat
  self : Toggle

/-- The document before any controller exists. -/
structure Document where
  elements : NodeId → Element
  querySelector : String → Except Fault (Option NodeId)

/-- The method `addEventListener`: a listener already in the list is not added again. -/
def addEventListener {α : Type} [DecidableEq α] (listeners : List α) (fn : α) : List α :=
  if fn ∈ listeners then listeners else listeners ++ [fn]

/-- The method `removeEventListener`. -/
def removeEventListener {α : Type} [DecidableEq α] (listeners : List α) (fn : α) : List α :=
  listeners.erase fn

/-- Replace one element of the document. -/
def World.setElement (w : World) (n : NodeId) (e : Element) : World :=
  { w with elements := fun m => if m = n then e else w.elements m }

/-- The call `node.classList.add(token)`. -/
def World.classListAdd (w : World) (n : NodeId) (token : String) : Except Fault World :=
  match DOMTokenList.add (w.elements n).classList token with
  | .error e => .error e
  | .ok tokens => .ok (w.setElement n { w.elements n with classList := tokens })

/-- The call `node.classList.remove(token)`. -/
def World.classListRemove (w : World) (n : NodeId) (token : String) : Except Fault World :=
  match DOMTokenList.remove (w.elements n).classList token with
  | .error e => .error e
  | .ok tokens => .ok (w.setElement n { w.elements n with classList := tokens })

/-- The call `node.setAttribute(name, value)`. -/
def World.setAttribute (w : World) (n : NodeId) (name value : String) : World :=
  w.setElement n ((w.elements n).setAttribute name value)

/-- The call `console.error(message)`. -/
def World.consoleError (w : World) (message : String) : World :=
  { w with console := w.console ++ [message] }

/-- The assignment `this.targetElement = value`. -/
def World.setTargetElement (w : World) (value : Option NodeId) : World :=
  { w with self := { w.self with targetElement := value } }

/-- The trigger element `this.element`. -/
def World.trigger (w : World) : Element :=
  w.elements w.self.element

/-- Method `isToggled` (lines 95-97). -/
def Toggle.isToggled (w : World) : Bool :=
  DOMTokenList.contains w.trigger.classList w.self.classNames.toggle

/-- Method `toggleOn(isSetup)` (lines 108-117); a call without argument is
`toggleOn w false`. -/
def Toggle.toggleOn (w : World) (isSetup : Bool) : Except Fault World :=
  if Toggle.isToggled w && !isSetup then .ok w
  else
    match w.classListAdd w.self.element w.self.classNames.toggle with
    | .error e => .error e
    | .ok w1 =>
      let w2 := w1.setAttribute w1.self.element "aria-expanded" "true"
      match w2.self.targetElement with
      | none => .error .typeError
      | some t => w2.classListAdd t w2.self.classNames.toggle

/-- Method `toggleOff(isSetup)` (lines 119-128); a call without argument is
`toggleOff w false`. -/
def Toggle.toggleOff (w : World) (isSetup : Bool) : Except Fault World :=
  if !Toggle.isToggled w && !isSetup then .ok w
  else
    match w.classListRemove w.self.element w.self.classNames.toggle with
    | .error e => .error e
    | .ok w1 =>
      let w2 := w1.setAttribute w1.self.element "aria-expanded" "false"
      match w2.self.targetElement with
      | none => .error .typeError
      | some t => w2.classListRemove t w2.self.classNames.toggle

/-- Method `toggle` (lines 99-106). -/
def Toggle.toggle (w : World) : Except Fault World :=
  if Toggle.isToggled w then Toggle.toggleOff w false
  else Toggle.toggleOn w false

/-- Method `setup` (lines 81-93). -/
def Toggle.setup (w : World) : Except Fault World :=
  match w.self.targetElement with
  | none => .error .typeError
  | some t =>
    let w1 :=
      if !(w.elements t).hasAttribute "id" then
        w.setAttribute t "id" (jsString w.trigger.datasetId)
      else w
    let w2 := w1.setAttribute w1.self.element "aria-controls" (w1.elements t).id
    if Toggle.isToggled w2 then Toggle.toggleOn w2 true
    else Toggle.toggleOff w2 true

/-- Function `escPress(callback)` (lines 3-17): registers a new closure on
`document` for `keyup` and returns its disposer. -/
def escPress (callback : Method) (w : World) : KeyupListener × World :=
  let fn := KeyupListener.escPressFn w.nextClosure callback
  (fn, { w with documentKeyup := addEventListener w.documentKeyup fn,
                nextClosure := w.nextClosure + 1 })

/-- Function `clickOutside(elements, callback)` (lines 19-39): registers a new
closure on `document` for `click` and returns its disposer. -/
def clickOutside (elements : List (Option NodeId)) (callback : Method) (w : World) :
    ClickListener × World :=
  let fn := ClickListener.clickOutsideFn w.nextClosure elements callback
  (fn, { w with documentClick := addEventListener w.documentClick fn,
                nextClosure := w.nextClosure + 1 })

/-- Method `addEvents` (lines 130-138). -/
def Toggle.addEvents (w : World) : World :=
  let w1 : World :=
    { w with elementClick := fun n =>
        if n = w.self.element then addEventListener (w.elementClick n) .boundToggle
        else w.elementClick n }
  let w2 : World :=
    if w1.self.options.escPress then
      let r := escPress .toggleOff w1
      { r.2 with self := { r.2.self with escPressCleanup := some r.1 } }
    else w1
  if w2.self.options.clickOutside then
    let r := clickOutside [some w2.self.element, w2.self.targetElement] .toggleOff w2
    { r.2 with self := { r.2.self with clickOutsideCleanup := some r.1 } }
  else w2

/-- Method `removeEvents` (lines 140-148). -/
def Toggle.removeEvents (w : World) : Except Fault World :=
  let w1 : World :=
    { w with elementClick := fun n =>
        if n = w.self.element then removeEventListener (w.elementClick n) .boundToggle
        else w.elementClick n }
  let r2 : Except Fault World :=
    if w1.self.options.escPress then
      match w1.self.escPressCleanup with
      | none => .error .typeError
      | some fn => .ok { w1 with documentKeyup := removeEventListener w1.documentKeyup fn }
    else .ok w1
  match r2 with
  | .error e => .error e
  | .ok w2 =>
    if w2.self.options.clickOutside then
      match w2.self.clickOutsideCleanup with
      | none => .error .typeError
      | some fn => .ok { w2 with documentClick := removeEventListener w2.documentClick fn }
    else .ok w2

/-- The selector built on line 73. -/
def targetSelector (dataId : Option String) : String :=
  "[data-toggle-box=\"" ++ jsString dataId ++ "\"]"

/-- Method `init` (lines 67-79). -/
def Toggle.init (w : World) : Except Fault World :=
  if DOMTokenList.contains w.trigger.classList w.self.classNames.init then
    .ok (w.consoleError ("Toggle is already initialized (id): " ++ jsString w.trigger.datasetId))
  else
    match w.querySelector (targetSelector w.trigger.datasetId) with
    | .error e => .error e
    | .ok found =>
      match Toggle.setup (w.setTargetElement found) with
      | .error e => .error e
      | .ok w2 =>
        let w3 := Toggle.addEvents w2
        w3.classListAdd w3.self.element w3.self.classNames.init

/-- Method `destroy` (lines 150-161). -/
def Toggle.destroy (w : World) : Except Fault World :=
  if !DOMTokenList.contains w.trigger.classList w.self.classNames.init then
    .ok (w.consoleError ("Toggle is not initialized (id): " ++ jsString w.trigger.datasetId))
  else
    match Toggle.removeEvents w with
    | .error e => .error e
    | .ok w1 =>
      let w2 := w1.setTargetElement none
      w2.classListRemove w2.self.element w2.self.classNames.init

/-- The field assignments of the constructor (lines 43-62), in a document
where no listener of this controller is registered yet. -/
def Toggle.fields (doc : Document) (element : NodeId) (options : OptionsArg)
    (classNames : ClassNamesArg) : World :=
  { elements := doc.elements
    querySelector := doc.querySelector
    elementClick := fun _ => []
    documentKeyup := []
    documentClick := []
    console := []
    nextClosure := 0
    self :=
      { element := element
        options :=
          { escPress := options.escPress.getD true
            clickOutside := options.clickOutside.getD true }
        classNames :=
          { init := classNames.init.getD "is-init-toggle"
            toggle := classNames.toggle.getD "is-toggled" }
        targetElement := none
        escPressCleanup := none
        clickOutsideCleanup := none } }

/-- The constructor (lines 42-65): `new Toggle(element, options, classNames)`. -/
def Toggle.new (doc : Document) (element : NodeId) (options : OptionsArg)
    (classNames : ClassNamesArg) : Except Fault World :=
  Toggle.init (Toggle.fields doc element options classNames)

/-! ## Event dispatch -/

/-- A bound method called with no argument. -/
def Method.call : Method → World → Except Fault World
  | .toggle, w => Toggle.toggle w
  | .toggleOn, w => Toggle.toggleOn w false
  | .toggleOff, w => Toggle.toggleOff w false

/-- Run one `keyup` listener on an event. -/
def KeyupListener.handle : KeyupListener → KeyboardEvent → World → Except Fault World
  | .escPressFn _ callback, event, w => escPress.fn callback.call event w

/-- Run one `click` listener on an event.  `this.toggle` ignores the event. -/
def ClickListener.handle : ClickListener → MouseEvent → World → Except Fault World
  | .boundToggle, _, w => Toggle.toggle w
  | .clickOutsideFn _ elements callback, event, w =>
    clickOutside.fn elements callback.call event w

/-- Run listeners one after the other. -/
def runListeners {α ε : Type} (handle : α → ε → World → Except Fault World)
    (event : ε) : List α → World → Except Fault World
  | [], w => .ok w
  | fn :: rest, w =>
    match handle fn event w with
    | .error e => .error e
    | .ok w1 => runListeners handle event rest w1

/-- A click in the document: the event bubbles from `event.target` through its
ancestors, running the click listeners of each, and then reaches `document`. -/
def dispatchClick (event : MouseEvent) (w : World) : Except Fault World :=
  runListeners ClickListener.handle event
    ((event.target.chain.map w.elementClick).flatten ++ w.documentClick) w

/-- A key release in the document: the event reaches the `keyup` listeners of `document`. -/
def dispatchKeyup (event : KeyboardEvent) (w : World) : Except Fault World :=
  runListeners KeyupListener.handle event w.documentKeyup w

/-- What can happen to a live controller: a call of one of its state methods,
or an event in the document. -/
inductive Action where
  | toggle
  | toggleOn (isSetup : Bool)
  | toggleOff (isSetup : Bool)
  | click (event : MouseEvent)
  | keyup (event : KeyboardEvent)

/-- An event in the document as an action. -/
def Action.ofEvent : MouseEvent ⊕ KeyboardEvent → Action
  | .inl event => .click event
  | .inr event => .keyup event

/-- Perform one action. -/
def Action.step : Action → World → Except Fault World
  | .toggle, w => Toggle.toggle w
  | .toggleOn isSetup, w => Toggle.toggleOn w isSetup
  | .toggleOff isSetup, w => Toggle.toggleOff w isSetup
  | .click event, w => dispatchClick event w
  | .keyup event, w => dispatchKeyup event w

/-- Perform a sequence of actions, first to last. -/
def run : List Action → World → Except Fault World
  | [], w => .ok w
  | a :: rest, w =>
    match a.step w with
    | .error e => .error e
    | .ok w1 => run rest w1

/-! ## Observations -/

/-- Does node `n` carry the configured toggled marker? -/
def World.hasToggled (w : World) (n : NodeId) : Bool :=
  DOMTokenList.contains (w.elements n).classList w.self.classNames.toggle

/-- Does the trigger carry the configured initialized marker? -/
def World.hasInit (w : World) : Bool :=
  DOMTokenList.contains w.trigger.classList w.self.classNames.init

/-- The trigger's `aria-expanded` attribute. -/
def World.ariaExpanded (w : World) : Option String :=
  w.trigger.attributes "aria-expanded"

/-! ## Predicates used in the statements -/

/-- The token passes the validation of `classList.add` / `classList.remove`. -/
def ValidToken (token : String) : Prop := DOMTokenList.validate token = .ok ()

/-- Everything but the elements is the same in `w'` as in `w`. -/
def Frame (w w' : World) : Prop :=
  w'.self = w.self ∧ w'.querySelector = w.querySelector ∧ w'.elementClick = w.elementClick ∧
  w'.documentKeyup = w.documentKeyup ∧ w'.documentClick = w.documentClick ∧
  w'.console = w.console ∧ w'.nextClosure = w.nextClosure

/-- Every class token other than the toggled marker is on the same nodes in `w'` as in `w`. -/
def KeepsOtherTokens (w w' : World) : Prop :=
  ∀ (n : NodeId) (token : String), token ≠ w.self.classNames.toggle →
    DOMTokenList.contains (w'.elements n).classList token
      = DOMTokenList.contains (w.elements n).classList token

/-- The step from `w` to `w'` wrote the On state to trigger and target `t`. -/
def TurnedOn (t : NodeId) (w w' : World) : Prop :=
  Frame w w' ∧ KeepsOtherTokens w w' ∧ w'.hasToggled w'.self.element = true ∧
  w'.hasToggled t = true ∧ w'.ariaExpanded = some "true"

/-- The step from `w` to `w'` wrote the Off state to trigger and target `t`. -/
def TurnedOff (t : NodeId) (w w' : World) : Prop :=
  Frame w w' ∧ KeepsOtherTokens w w' ∧ w'.hasToggled w'.self.element = false ∧
  w'.hasToggled t = false ∧ w'.ariaExpanded = some "false"

/-- The controller holds target `t` and its toggled marker is a valid token. -/
def Live (t : NodeId) (w : World) : Prop :=
  w.self.targetElement = some t ∧ ValidToken w.self.classNames.toggle

/-- The call `init()` initialized the controller: on `w0` the trigger did not
carry the initialized marker, so `init` went past its guard, and it returned
`w1`.  The constructor is the case `w0 = Toggle.fields ...`. -/
def Initialized (w0 w1 : World) : Prop :=
  w0.hasInit = false ∧ Toggle.init w0 = .ok w1

/-- One of the three things a state method or a listener does to a live
controller: nothing, write On, write Off. -/
def Moved (t : NodeId) (w w' : World) : Prop :=
  w' = w ∨ TurnedOn t w w' ∨ TurnedOff t w w'

/-- The token list after `add(token)`. -/
def insertToken (token : String) (tokens : List String) : List String :=
  if token ∈ tokens then tokens else tokens ++ [token]

/-- The token list after `remove(token)`. -/
def eraseToken (token : String) (tokens : List String) : List String :=
  tokens.filter (fun x => decide (x ≠ token))

/-- Rewrite the class list of node `n`. -/
def World.withClassList (w : World) (n : NodeId) (f : List String → List String) : World :=
  w.setElement n { w.elements n with classList := f (w.elements n).classList }

/-- The world `toggleOn` writes. -/
def markOn (t : NodeId) (w : World) : World :=
  ((w.withClassList w.self.element (insertToken w.self.classNames.toggle)).setAttribute
    w.self.element "aria-expanded" "true").withClassList t (insertToken w.self.classNames.toggle)

/-- The world `toggleOff` writes. -/
def markOff (t : NodeId) (w : World) : World :=
  ((w.withClassList w.self.element (eraseToken w.self.classNames.toggle)).setAttribute
    w.self.element "aria-expanded" "false").withClassList t (eraseToken w.self.classNames.toggle)

/-- The world `setup` writes when the target `t` is already stored in `this`. -/
def setupWorld (t : NodeId) (w : World) : World :=
  let w1 :=
    if !(w.elements t).hasAttribute "id" then
      w.setAttribute t "id" (jsString w.trigger.datasetId)
    else w
  let w2 := w1.setAttribute w1.self.element "aria-controls" (w1.elements t).id
  if Toggle.isToggled w2 then markOn t w2 else markOff t w2

/-- The world a successful `init` writes when the selector finds `t`. -/
def initWorld (t : NodeId) (w : World) : World :=
  let w3 := Toggle.addEvents
    (setupWorld t (w.setTargetElement (some t)))
  w3.withClassList w3.self.element (insertToken w3.self.classNames.init)

/-! ## A concrete page -/

/-- Trigger `0` with `data-id="panel-1"`, target `1`, and nothing else. -/
def demoDocument : Document where
  elements := fun n =>
    if n = 0 then
      { classList := ["btn"], attributes := fun k => if k = "data-id" then some "panel-1" else none }
    else if n = 1 then
      { classList := [], attributes := fun k => if k = "data-toggle-box" then some "panel-1" else none }
    else { classList := [], attributes := fun _ => none }
  querySelector := fun selector =>
    if selector = "[data-toggle-box=\"panel-1\"]" then .ok (some 1) else .ok none

/-- The page when `new Toggle(trigger)`, with no options and no class names,
has set the fields and not yet called `init`. -/
def demoFresh : World :=
  Toggle.fields demoDocument 0 {} {}

/-- The page after `new Toggle(trigger)`. -/
def demoWorld : World :=
  initWorld 1 demoFresh

/-! ## Class lists, attributes and the element store -/

theorem mem_insertToken (x token : String) (tokens : List String) :
    x ∈ insertToken token tokens ↔ x = token ∨ x ∈ tokens := by
  unfold insertToken
  split_ifs with h
  · constructor
    · exact Or.inr
    · rintro (rfl | h') <;> assumption
  · simp [or_comm]

theorem mem_eraseToken (x token : String) (tokens : List String) :
    x ∈ eraseToken token tokens ↔ x ∈ tokens ∧ x ≠ token := by
  simp [eraseToken]

theorem withClassList_self (w : World) (n : NodeId) (f : List String → List String) :
    (w.withClassList n f).self = w.self := rfl

theorem withClassList_classList (w : World) (n m : NodeId) (f : List String → List String) :
    ((w.withClassList n f).elements m).classList
      = if m = n then f (w.elements m).classList else (w.elements m).classList := by
  simp only [World.withClassList, World.setElement]
  split_ifs with h
  · subst h; rfl
  · rfl

theorem withClassList_attributes (w : World) (n m : NodeId) (f : List String → List String) :
    ((w.withClassList n f).elements m).attributes = (w.elements m).attributes := by
  simp only [World.withClassList, World.setElement]
  split_ifs with h
  · subst h; rfl
  · rfl

theorem setAttribute_self (w : World) (n : NodeId) (k v : String) :
    (w.setAttribute n k v).self = w.self := rfl

theorem setAttribute_classList (w : World) (n m : NodeId) (k v : String) :
    ((w.setAttribute n k v).elements m).classList = (w.elements m).classList := by
  simp only [World.setAttribute, World.setElement, Element.setAttribute]
  split_ifs with h
  · subst h; rfl
  · rfl

theorem setAttribute_attributes (w : World) (n m : NodeId) (k v a : String) :
    ((w.setAttribute n k v).elements m).attributes a
      = if m = n ∧ a = k then some v else (w.elements m).attributes a := by
  simp only [World.setAttribute, World.setElement, Element.setAttribute]
  by_cases h : m = n
  · subst h; by_cases h' : a = k <;> simp [h']
  · simp [h]

theorem classListAdd_valid (w : World) (n : NodeId) (token : String) (h : ValidToken token) :
    w.classListAdd n token = .ok (w.withClassList n (insertToken token)) := by
  unfold ValidToken at h
  simp [World.classListAdd, DOMTokenList.add, h, World.withClassList, insertToken]

theorem classListRemove_valid (w : World) (n : NodeId) (token : String) (h : ValidToken token) :
    w.classListRemove n token = .ok (w.withClassList n (eraseToken token)) := by
  unfold ValidToken at h
  simp [World.classListRemove, DOMTokenList.remove, h, World.withClassList, eraseToken]

theorem markOn_self (t : NodeId) (w : World) : (markOn t w).self = w.self := rfl

theorem markOff_self (t : NodeId) (w : World) : (markOff t w).self = w.self := rfl

theorem markOn_mem (t : NodeId) (w : World) (m : NodeId) (x : String) :
    x ∈ ((markOn t w).elements m).classList ↔
      ((m = t ∨ m = w.self.element) ∧ x = w.self.classNames.toggle) ∨ x ∈ (w.elements m).classList := by
  simp only [markOn, withClassList_classList, setAttribute_classList]
  split_ifs with h1 h2 h2 <;> (try simp only [mem_insertToken]) <;> tauto

theorem markOff_mem (t : NodeId) (w : World) (m : NodeId) (x : String) :
    x ∈ ((markOff t w).elements m).classList ↔
      x ∈ (w.elements m).classList ∧ ¬ ((m = t ∨ m = w.self.element) ∧ x = w.self.classNames.toggle) := by
  simp only [markOff, withClassList_classList, setAttribute_classList]
  split_ifs with h1 h2 h2 <;> (try simp only [mem_eraseToken]) <;> tauto

theorem markOn_spec (t : NodeId) (w : World) : TurnedOn t w (markOn t w) := by
  refine ⟨⟨rfl, rfl, rfl, rfl, rfl, rfl, rfl⟩, ?_, ?_, ?_, ?_⟩
  · intro n token hne
    simp [DOMTokenList.contains, markOn_mem, hne]
  · simp [World.hasToggled, DOMTokenList.contains, markOn_mem, markOn_self]
  · simp [World.hasToggled, DOMTokenList.contains, markOn_mem, markOn_self]
  · simp [World.ariaExpanded, World.trigger, markOn, withClassList_attributes,
      setAttribute_attributes, withClassList_self, setAttribute_self]

theorem markOff_spec (t : NodeId) (w : World) : TurnedOff t w (markOff t w) := by
  refine ⟨⟨rfl, rfl, rfl, rfl, rfl, rfl, rfl⟩, ?_, ?_, ?_, ?_⟩
  · intro n token hne
    simp [DOMTokenList.contains, markOff_mem, hne]
  · simp [World.hasToggled, DOMTokenList.contains, markOff_mem, markOff_self]
  · simp [World.hasToggled, DOMTokenList.contains, markOff_mem, markOff_self]
  · simp [World.ariaExpanded, World.trigger, markOff, withClassList_attributes,
      setAttribute_attributes, withClassList_self, setAttribute_self]

theorem toggleOn_eq (t : NodeId) (w : World) (h : Live t w) (b : Bool)
    (hb : (Toggle.isToggled w && !b) = false) :
    Toggle.toggleOn w b = .ok (markOn t w) := by
  obtain ⟨ht, hv⟩ := h
  unfold Toggle.toggleOn
  rw [if_neg (by simp [hb]), classListAdd_valid _ _ _ hv]
  simp only [withClassList_self, setAttribute_self, ht]
  rw [classListAdd_valid _ _ _ hv]
  rfl

theorem toggleOff_eq (t : NodeId) (w : World) (h : Live t w) (b : Bool)
    (hb : (!Toggle.isToggled w && !b) = false) :
    Toggle.toggleOff w b = .ok (markOff t w) := by
  obtain ⟨ht, hv⟩ := h
  unfold Toggle.toggleOff
  rw [if_neg (by simp [hb]), classListRemove_valid _ _ _ hv]
  simp only [withClassList_self, setAttribute_self, ht]
  rw [classListRemove_valid _ _ _ hv]
  rfl


theorem frame_refl (w : World) : Frame w w := ⟨rfl, rfl, rfl, rfl, rfl, rfl, rfl⟩

theorem frame_trans {a b c : World} (h1 : Frame a b) (h2 : Frame b c) : Frame a c := by
  obtain ⟨a1, a2, a3, a4, a5, a6, a7⟩ := h1
  obtain ⟨b1, b2, b3, b4, b5, b6, b7⟩ := h2
  exact ⟨b1.trans a1, b2.trans a2, b3.trans a3, b4.trans a4, b5.trans a5, b6.trans a6, b7.trans a7⟩

theorem keeps_trans {a b c : World} (hf : Frame a b) (h1 : KeepsOtherTokens a b)
    (h2 : KeepsOtherTokens b c) : KeepsOtherTokens a c := by
  intro n token hne
  rw [h2 n token (by rw [hf.1]; exact hne), h1 n token hne]

theorem live_of_frame {t : NodeId} {w w' : World} (h : Live t w) (hf : Frame w w') : Live t w' := by
  unfold Live at *
  rw [hf.1]; exact h

theorem moved_refl (t : NodeId) (w : World) : Moved t w w := Or.inl rfl

theorem moved_frame {t : NodeId} {w w' : World} (h : Moved t w w') : Frame w w' := by
  rcases h with rfl | h | h
  · exact frame_refl _
  · exact h.1
  · exact h.1

theorem moved_keeps {t : NodeId} {w w' : World} (h : Moved t w w') : KeepsOtherTokens w w' := by
  rcases h with rfl | h | h
  · intro _ _ _; rfl
  · exact h.2.1
  · exact h.2.1

theorem moved_trans {t : NodeId} {a b c : World} (h1 : Moved t a b) (h2 : Moved t b c) :
    Moved t a c := by
  rcases h2 with rfl | h | h
  · exact h1
  · exact Or.inr (Or.inl ⟨frame_trans (moved_frame h1) h.1, keeps_trans (moved_frame h1) (moved_keeps h1) h.2.1, h.2.2⟩)
  · exact Or.inr (Or.inr ⟨frame_trans (moved_frame h1) h.1, keeps_trans (moved_frame h1) (moved_keeps h1) h.2.1, h.2.2⟩)

theorem live_of_moved {t : NodeId} {w w' : World} (h : Live t w) (hm : Moved t w w') : Live t w' :=
  live_of_frame h (moved_frame hm)

theorem isToggled_eq (w : World) : Toggle.isToggled w = w.hasToggled w.self.element := rfl

/-- On a live controller `toggleOn` returns: unchanged when already On and not
forced, and with the On state written otherwise. -/
theorem toggleOn_live (t : NodeId) (w : World) (h : Live t w) (b : Bool) :
    ∃ w', Toggle.toggleOn w b = .ok w' ∧
      ((Toggle.isToggled w = true ∧ b = false ∧ w' = w) ∨
       ((Toggle.isToggled w && !b) = false ∧ TurnedOn t w w')) := by
  by_cases hb : (Toggle.isToggled w && !b) = true
  · refine ⟨w, ?_, Or.inl ?_⟩
    · unfold Toggle.toggleOn; rw [if_pos hb]
    · simpa using hb
  · have hb' : (Toggle.isToggled w && !b) = false := by simpa using hb
    exact ⟨markOn t w, toggleOn_eq t w h b hb', Or.inr ⟨hb', markOn_spec t w⟩⟩

/-- On a live controller `toggleOff` returns: unchanged when already Off and
not forced, and with the Off state written otherwise. -/
theorem toggleOff_live (t : NodeId) (w : World) (h : Live t w) (b : Bool) :
    ∃ w', Toggle.toggleOff w b = .ok w' ∧
      ((Toggle.isToggled w = false ∧ b = false ∧ w' = w) ∨
       ((!Toggle.isToggled w && !b) = false ∧ TurnedOff t w w')) := by
  by_cases hb : (!Toggle.isToggled w && !b) = true
  · refine ⟨w, ?_, Or.inl ?_⟩
    · unfold Toggle.toggleOff; rw [if_pos hb]
    · simpa using hb
  · have hb' : (!Toggle.isToggled w && !b) = false := by simpa using hb
    exact ⟨markOff t w, toggleOff_eq t w h b hb', Or.inr ⟨hb', markOff_spec t w⟩⟩

/-- On a live controller `toggle` returns and writes the opposite state. -/
theorem toggle_live (t : NodeId) (w : World) (h : Live t w) :
    ∃ w', Toggle.toggle w = .ok w' ∧
      ((Toggle.isToggled w = true ∧ TurnedOff t w w') ∨
       (Toggle.isToggled w = false ∧ TurnedOn t w w')) := by
  unfold Toggle.toggle
  by_cases ht : Toggle.isToggled w = true
  · rw [if_pos ht]
    exact ⟨markOff t w, toggleOff_eq t w h false (by simp [ht]), Or.inl ⟨ht, markOff_spec t w⟩⟩
  · rw [if_neg ht]
    have ht' : Toggle.isToggled w = false := by simpa using ht
    exact ⟨markOn t w, toggleOn_eq t w h false (by simp [ht']), Or.inr ⟨ht', markOn_spec t w⟩⟩

theorem toggleOn_moved (t : NodeId) (w : World) (h : Live t w) (b : Bool) :
    ∃ w', Toggle.toggleOn w b = .ok w' ∧ Moved t w w' := by
  obtain ⟨w', h1, h2⟩ := toggleOn_live t w h b
  refine ⟨w', h1, ?_⟩
  rcases h2 with ⟨_, _, rfl⟩ | ⟨_, h3⟩
  · exact moved_refl _ _
  · exact Or.inr (Or.inl h3)

theorem toggleOff_moved (t : NodeId) (w : World) (h : Live t w) (b : Bool) :
    ∃ w', Toggle.toggleOff w b = .ok w' ∧ Moved t w w' := by
  obtain ⟨w', h1, h2⟩ := toggleOff_live t w h b
  refine ⟨w', h1, ?_⟩
  rcases h2 with ⟨_, _, rfl⟩ | ⟨_, h3⟩
  · exact moved_refl _ _
  · exact Or.inr (Or.inr h3)

theorem toggle_moved (t : NodeId) (w : World) (h : Live t w) :
    ∃ w', Toggle.toggle w = .ok w' ∧ Moved t w w' := by
  obtain ⟨w', h1, h2⟩ := toggle_live t w h
  refine ⟨w', h1, ?_⟩
  rcases h2 with ⟨_, h3⟩ | ⟨_, h3⟩
  · exact Or.inr (Or.inr h3)
  · exact Or.inr (Or.inl h3)

theorem method_moved (t : NodeId) (w : World) (h : Live t w) (m : Method) :
    ∃ w', m.call w = .ok w' ∧ Moved t w w' := by
  cases m
  · exact toggle_moved t w h
  · exact toggleOn_moved t w h false
  · exact toggleOff_moved t w h false

theorem keyupListener_moved (t : NodeId) (w : World) (h : Live t w) (fn : KeyupListener)
    (event : KeyboardEvent) : ∃ w', fn.handle event w = .ok w' ∧ Moved t w w' := by
  cases fn with
  | escPressFn c callback =>
    simp only [KeyupListener.handle, escPress.fn]
    split_ifs
    · exact ⟨w, rfl, moved_refl _ _⟩
    · exact method_moved t w h callback

theorem clickListener_moved (t : NodeId) (w : World) (h : Live t w) (fn : ClickListener)
    (event : MouseEvent) : ∃ w', fn.handle event w = .ok w' ∧ Moved t w w' := by
  cases fn with
  | boundToggle => exact toggle_moved t w h
  | clickOutsideFn c elements callback =>
    simp only [ClickListener.handle, clickOutside.fn]
    split_ifs
    · exact ⟨w, rfl, moved_refl _ _⟩
    · exact method_moved t w h callback

theorem runListeners_moved {α ε : Type} (handle : α → ε → World → Except Fault World)
    (t : NodeId)
    (hh : ∀ (fn : α) (event : ε) (w : World), Live t w →
      ∃ w', handle fn event w = .ok w' ∧ Moved t w w')
    (event : ε) (fns : List α) (w : World) (h : Live t w) :
    ∃ w', runListeners handle event fns w = .ok w' ∧ Moved t w w' := by
  induction fns generalizing w with
  | nil => exact ⟨w, rfl, moved_refl _ _⟩
  | cons fn rest ih =>
    obtain ⟨w1, h1, m1⟩ := hh fn event w h
    obtain ⟨w2, h2, m2⟩ := ih w1 (live_of_moved h m1)
    refine ⟨w2, ?_, moved_trans m1 m2⟩
    simp only [runListeners, h1, h2]

theorem step_moved (t : NodeId) (w : World) (h : Live t w) (a : Action) :
    ∃ w', a.step w = .ok w' ∧ Moved t w w' := by
  cases a with
  | toggle => exact toggle_moved t w h
  | toggleOn b => exact toggleOn_moved t w h b
  | toggleOff b => exact toggleOff_moved t w h b
  | click event =>
    exact runListeners_moved _ t (fun fn ev w hw => clickListener_moved t w hw fn ev) _ _ w h
  | keyup event =>
    exact runListeners_moved _ t (fun fn ev w hw => keyupListener_moved t w hw fn ev) _ _ w h

theorem run_moved (t : NodeId) (acts : List Action) (w : World) (h : Live t w) :
    ∃ w', run acts w = .ok w' ∧ Moved t w w' := by
  induction acts generalizing w with
  | nil => exact ⟨w, rfl, moved_refl _ _⟩
  | cons a rest ih =>
    obtain ⟨w1, h1, m1⟩ := step_moved t w h a
    obtain ⟨w2, h2, m2⟩ := ih w1 (live_of_moved h m1)
    refine ⟨w2, ?_, moved_trans m1 m2⟩
    simp only [run, h1, h2]

theorem validate_cases (token : String) :
    ValidToken token ∨ ∃ e, DOMTokenList.validate token = .error e := by
  unfold ValidToken
  cases h : DOMTokenList.validate token with
  | error e => exact Or.inr ⟨e, rfl⟩
  | ok u => exact Or.inl rfl

theorem classListAdd_invalid (w : World) (n : NodeId) (token : String) (e : Fault)
    (h : DOMTokenList.validate token = .error e) : w.classListAdd n token = .error e := by
  simp [World.classListAdd, DOMTokenList.add, h]

theorem classListRemove_invalid (w : World) (n : NodeId) (token : String) (e : Fault)
    (h : DOMTokenList.validate token = .error e) : w.classListRemove n token = .error e := by
  simp [World.classListRemove, DOMTokenList.remove, h]

theorem toggleOn_invalid (w : World) (e : Fault)
    (h : DOMTokenList.validate w.self.classNames.toggle = .error e) :
    Toggle.toggleOn w true = .error e := by
  unfold Toggle.toggleOn
  rw [if_neg (by simp), classListAdd_invalid _ _ _ e h]

theorem toggleOff_invalid (w : World) (e : Fault)
    (h : DOMTokenList.validate w.self.classNames.toggle = .error e) :
    Toggle.toggleOff w true = .error e := by
  unfold Toggle.toggleOff
  rw [if_neg (by simp), classListRemove_invalid _ _ _ e h]

theorem setup_eq (t : NodeId) (w : World) (h : Live t w) :
    Toggle.setup w = .ok (setupWorld t w) := by
  unfold Toggle.setup setupWorld
  rw [h.1]
  simp only []
  split_ifs with h1 h2 h2
  · refine toggleOn_eq t _ ?_ true ?_
    · exact h
    · simp
  · refine toggleOff_eq t _ ?_ true ?_
    · exact h
    · simp
  · refine toggleOn_eq t _ ?_ true ?_
    · exact h
    · simp
  · refine toggleOff_eq t _ ?_ true ?_
    · exact h
    · simp

theorem setupWorld_self (t : NodeId) (w : World) : (setupWorld t w).self = w.self := by
  unfold setupWorld
  simp only []
  split_ifs <;> rfl

theorem setup_invalid (t : NodeId) (w : World) (ht : w.self.targetElement = some t) (e : Fault)
    (h : DOMTokenList.validate w.self.classNames.toggle = .error e) :
    Toggle.setup w = .error e := by
  unfold Toggle.setup
  rw [ht]
  simp only []
  split_ifs with h1 h2 h2
  · exact toggleOn_invalid _ e h
  · exact toggleOff_invalid _ e h
  · exact toggleOn_invalid _ e h
  · exact toggleOff_invalid _ e h

theorem setup_null (w : World) (ht : w.self.targetElement = none) :
    Toggle.setup w = .error .typeError := by
  unfold Toggle.setup
  rw [ht]

theorem addEvents_classNames (w : World) : (Toggle.addEvents w).self.classNames = w.self.classNames := by
  unfold Toggle.addEvents escPress clickOutside
  simp only []
  split_ifs <;> rfl

theorem addEvents_element (w : World) : (Toggle.addEvents w).self.element = w.self.element := by
  unfold Toggle.addEvents escPress clickOutside
  simp only []
  split_ifs <;> rfl

theorem addEvents_targetElement (w : World) :
    (Toggle.addEvents w).self.targetElement = w.self.targetElement := by
  unfold Toggle.addEvents escPress clickOutside
  simp only []
  split_ifs <;> rfl

theorem addEvents_elements (w : World) : (Toggle.addEvents w).elements = w.elements := by
  unfold Toggle.addEvents escPress clickOutside
  simp only []
  split_ifs <;> rfl

/-- When `init` passes its guard, finds the target and both class names are
valid tokens, it returns `initWorld`. -/
theorem init_eq (t : NodeId) (w : World) (hni : w.hasInit = false)
    (hq : w.querySelector (targetSelector w.trigger.datasetId) = .ok (some t))
    (hv : ValidToken w.self.classNames.toggle) (hvi : ValidToken w.self.classNames.init) :
    Toggle.init w = .ok (initWorld t w) := by
  unfold Toggle.init
  rw [if_neg (by unfold World.hasInit at hni; simp [hni]), hq]
  simp only []
  rw [setup_eq t (w.setTargetElement (some t)) ⟨rfl, hv⟩]
  simp only []
  rw [classListAdd_valid]
  · rfl
  · rw [addEvents_classNames, setupWorld_self]; exact hvi

/-- A successful `init` that passed its guard found a target, both class
names are valid tokens, and the result is `initWorld`. -/
theorem init_inv (w w' : World) (hni : w.hasInit = false) (h : Toggle.init w = .ok w') :
    ∃ t, w.querySelector (targetSelector w.trigger.datasetId) = .ok (some t) ∧
      ValidToken w.self.classNames.toggle ∧ ValidToken w.self.classNames.init ∧
      w' = initWorld t w := by
  have hg : ¬ (DOMTokenList.contains w.trigger.classList w.self.classNames.init = true) := by
    unfold World.hasInit at hni; simp [hni]
  unfold Toggle.init at h
  rw [if_neg hg] at h
  cases hq : w.querySelector (targetSelector w.trigger.datasetId) with
  | error e => rw [hq] at h; simp at h
  | ok found =>
    rw [hq] at h
    simp only [] at h
    cases found with
    | none => rw [setup_null (w.setTargetElement none) rfl] at h; simp at h
    | some t =>
      rcases validate_cases w.self.classNames.toggle with hv | ⟨e, he⟩
      · rw [setup_eq t (w.setTargetElement (some t)) ⟨rfl, hv⟩] at h
        simp only [] at h
        rcases validate_cases w.self.classNames.init with hvi | ⟨e, he⟩
        · refine ⟨t, rfl, hv, hvi, ?_⟩
          have := init_eq t w hni hq hv hvi
          unfold Toggle.init at this
          rw [if_neg hg, hq] at this
          simp only [] at this
          rw [setup_eq t (w.setTargetElement (some t)) ⟨rfl, hv⟩] at this
          simp only [] at this
          rw [this] at h
          exact (Except.ok.inj h).symm
        · rw [classListAdd_invalid _ _ _ e (by rw [addEvents_classNames, setupWorld_self]; exact he)] at h
          simp at h
      · rw [setup_invalid t (w.setTargetElement (some t)) rfl e he] at h; simp at h

theorem setTargetElement_elements (w : World) (v : Option NodeId) :
    (w.setTargetElement v).elements = w.elements := rfl

/-- What `setup` writes: the On state when the trigger carries the toggled
marker, the Off state when it does not. -/
theorem setupWorld_spec (t : NodeId) (w : World) :
    (Toggle.isToggled w = true ∧ TurnedOn t w (setupWorld t w)) ∨
    (Toggle.isToggled w = false ∧ TurnedOff t w (setupWorld t w)) := by
  have key : ∀ (w2 : World), Frame w w2 →
      (∀ n, (w2.elements n).classList = (w.elements n).classList) →
      ((Toggle.isToggled w = true ∧
          TurnedOn t w (if Toggle.isToggled w2 then markOn t w2 else markOff t w2)) ∨
       (Toggle.isToggled w = false ∧
          TurnedOff t w (if Toggle.isToggled w2 then markOn t w2 else markOff t w2))) := by
    intro w2 hf hc
    have hk : KeepsOtherTokens w w2 := by
      intro n token _
      rw [hc n]
    have hi : Toggle.isToggled w2 = Toggle.isToggled w := by
      unfold Toggle.isToggled World.trigger
      rw [hf.1, hc]
    rw [hi]
    cases hw : Toggle.isToggled w with
    | true =>
      refine Or.inl ⟨rfl, ?_⟩
      rw [if_pos rfl]
      have h := markOn_spec t w2
      exact ⟨frame_trans hf h.1, keeps_trans hf hk h.2.1, h.2.2⟩
    | false =>
      refine Or.inr ⟨rfl, ?_⟩
      rw [if_neg (by simp)]
      have h := markOff_spec t w2
      exact ⟨frame_trans hf h.1, keeps_trans hf hk h.2.1, h.2.2⟩
  unfold setupWorld
  simp only []
  apply key
  · split_ifs <;> exact ⟨rfl, rfl, rfl, rfl, rfl, rfl, rfl⟩
  · intro n
    split_ifs <;> simp only [setAttribute_classList]

theorem initWorld_self_element (t : NodeId) (w : World) :
    (initWorld t w).self.element = w.self.element := by
  unfold initWorld
  simp only [withClassList_self, addEvents_element, setupWorld_self]
  rfl

theorem initWorld_self_classNames (t : NodeId) (w : World) :
    (initWorld t w).self.classNames = w.self.classNames := by
  unfold initWorld
  simp only [withClassList_self, addEvents_classNames, setupWorld_self]
  rfl

theorem initWorld_self_targetElement (t : NodeId) (w : World) :
    (initWorld t w).self.targetElement = some t := by
  unfold initWorld
  simp only [withClassList_self, addEvents_targetElement, setupWorld_self]
  rfl

theorem initWorld_mem (t : NodeId) (w : World) (m : NodeId) (x : String) :
    x ∈ ((initWorld t w).elements m).classList ↔
      (m = w.self.element ∧ x = w.self.classNames.init) ∨
      x ∈ ((setupWorld t (w.setTargetElement (some t))).elements m).classList := by
  unfold initWorld
  simp only [withClassList_classList, addEvents_elements, addEvents_element, addEvents_classNames,
    setupWorld_self]
  have e1 : (w.setTargetElement (some t)).self.element = w.self.element := rfl
  have e2 : (w.setTargetElement (some t)).self.classNames = w.self.classNames := rfl
  rw [e1, e2]
  split_ifs with h <;> (try simp only [mem_insertToken]) <;> tauto

theorem initWorld_attributes (t : NodeId) (w : World) (m : NodeId) :
    ((initWorld t w).elements m).attributes
      = ((setupWorld t (w.setTargetElement (some t))).elements m).attributes := by
  unfold initWorld
  simp only [withClassList_attributes, addEvents_elements]

theorem initWorld_live (t : NodeId) (w : World) (hv : ValidToken w.self.classNames.toggle) :
    Live t (initWorld t w) := by
  refine ⟨initWorld_self_targetElement t w, ?_⟩
  rw [initWorld_self_classNames]; exact hv

theorem initWorld_hasInit (t : NodeId) (w : World) : (initWorld t w).hasInit = true := by
  simp [World.hasInit, World.trigger, DOMTokenList.contains, initWorld_mem,
    initWorld_self_element, initWorld_self_classNames]

/-- With distinct class names, `init` leaves trigger and target with the
toggled marker exactly when the trigger carried it, and `aria-expanded` says so. -/
theorem initWorld_state (t : NodeId) (w : World)
    (hne : w.self.classNames.init ≠ w.self.classNames.toggle) :
    Toggle.isToggled (initWorld t w) = Toggle.isToggled w ∧
    (initWorld t w).hasToggled t = Toggle.isToggled w ∧
    (initWorld t w).ariaExpanded = some (if Toggle.isToggled w then "true" else "false") := by
  have hm : ∀ m, (initWorld t w).hasToggled m
      = (setupWorld t (w.setTargetElement (some t))).hasToggled m := by
    intro m
    have e2 : (w.setTargetElement (some t)).self.classNames = w.self.classNames := rfl
    simp only [World.hasToggled, DOMTokenList.contains, initWorld_mem, initWorld_self_classNames,
      setupWorld_self, e2]
    have : ¬ (m = w.self.element ∧ w.self.classNames.toggle = w.self.classNames.init) :=
      fun h => hne h.2.symm
    simp [this]
  have ha : (initWorld t w).ariaExpanded
      = (setupWorld t (w.setTargetElement (some t))).ariaExpanded := by
    simp only [World.ariaExpanded, World.trigger, initWorld_attributes, initWorld_self_element,
      setupWorld_self]
    rfl
  have hi : Toggle.isToggled (w.setTargetElement (some t)) = Toggle.isToggled w := rfl
  have he : (setupWorld t (w.setTargetElement (some t))).self.element = w.self.element := by
    rw [setupWorld_self]; rfl
  rw [isToggled_eq (initWorld t w), initWorld_self_element, hm, hm, ha]
  rcases setupWorld_spec t (w.setTargetElement (some t)) with ⟨h1, h2⟩ | ⟨h1, h2⟩
  · rw [hi] at h1
    obtain ⟨_, _, a, b, c⟩ := h2
    rw [he] at a
    rw [a, b, c, h1]; simp
  · rw [hi] at h1
    obtain ⟨_, _, a, b, c⟩ := h2
    rw [he] at a
    rw [a, b, c, h1]; simp

/-! ## escPress and clickOutside -/

theorem matches_iff (elements : List (Option NodeId)) (target : NodeId) :
    clickOutside.matches elements target = true ↔ some target ∈ elements := by
  simp [clickOutside.matches]

theorem walk_iff (elements : List (Option NodeId)) (target : Node) :
    clickOutside.walk elements target = true ↔ ∃ n, n ∈ target.chain ∧ some n ∈ elements := by
  induction target with
  | root i => simp [clickOutside.walk, Node.chain, matches_iff]
  | child i p ih => simp [clickOutside.walk, Node.chain, matches_iff, ih]

/-- C7. The listener `fn` registered by `escPress(callback)` runs `callback`,
once and with no argument, when `event.code` lower-cased is `"escape"`, and
does nothing for every other code: on any state it is the callback or the
identity, and with a callback that counts its calls the count goes up by one
exactly for the codes that lower-case to `"escape"`.  The same holds of the
listener as registered for `keyup` on `document`. -/
theorem escPress_fn_invokes_iff_escape (event : KeyboardEvent) :
    (∀ (σ : Type) (callback : σ → Except Fault σ) (s : σ),
      escPress.fn callback event s
        = if toLowerCase event.code = "escape" then callback s else .ok s) ∧
    (∀ (calls : Nat),
      (escPress.fn (fun k => Except.ok (k + 1)) event calls = .ok (calls + 1)
        ↔ toLowerCase event.code = "escape") ∧
      (escPress.fn (fun k => Except.ok (k + 1)) event calls = .ok calls
        ↔ toLowerCase event.code ≠ "escape")) ∧
    (∀ (callback : Method) (w w' : World),
      (escPress callback w).2.documentKeyup
          = addEventListener w.documentKeyup (escPress callback w).1 ∧
      (escPress callback w).1.handle event w'
        = if toLowerCase event.code = "escape" then callback.call w' else .ok w') := by
  refine ⟨?_, ?_, ?_⟩
  · intro σ callback s
    unfold escPress.fn
    by_cases h : toLowerCase event.code = "escape" <;> simp [h]
  · intro calls
    unfold escPress.fn
    by_cases h : toLowerCase event.code = "escape" <;> simp [h]
  · intro callback w w'
    refine ⟨rfl, ?_⟩
    simp only [escPress, KeyupListener.handle, escPress.fn]
    by_cases h : toLowerCase event.code = "escape" <;> simp [h]

/-- C6. The listener `fn` registered by `clickOutside(elements, callback)`
runs `callback`, once and with no argument, exactly when no node on the
parent chain of `event.target` (the target itself, its parent, ... up to the
node with no parent) is a member of `elements`; the walk is a total function
of the chain.  Stated for any callback, for a callback that counts its
calls, and for the listener as registered for `click` on `document`. -/
theorem clickOutside_fn_invokes_iff_outside (elements : List (Option NodeId))
    (event : MouseEvent) :
    (clickOutside.walk elements event.target = true
      ↔ ∃ n, n ∈ event.target.chain ∧ some n ∈ elements) ∧
    (∀ (σ : Type) (callback : σ → Except Fault σ) (s : σ),
      clickOutside.fn elements callback event s
        = if clickOutside.walk elements event.target then .ok s else callback s) ∧
    (∀ (calls : Nat),
      (clickOutside.fn elements (fun k => Except.ok (k + 1)) event calls = .ok (calls + 1)
        ↔ ¬ ∃ n, n ∈ event.target.chain ∧ some n ∈ elements) ∧
      (clickOutside.fn elements (fun k => Except.ok (k + 1)) event calls = .ok calls
        ↔ ∃ n, n ∈ event.target.chain ∧ some n ∈ elements)) ∧
    (∀ (callback : Method) (w w' : World),
      (clickOutside elements callback w).2.documentClick
          = addEventListener w.documentClick (clickOutside elements callback w).1 ∧
      (clickOutside elements callback w).1.handle event w'
        = if clickOutside.walk elements event.target then .ok w' else callback.call w') := by
  refine ⟨walk_iff _ _, ?_, ?_, ?_⟩
  · intro σ callback s
    rfl
  · intro calls
    rw [← walk_iff]
    unfold clickOutside.fn
    cases h : clickOutside.walk elements event.target <;> simp
  · intro callback w w'
    exact ⟨rfl, rfl⟩


/-! ## Initialized controllers -/

theorem initialized_inv {w0 w1 : World} (h : Initialized w0 w1) :
    ∃ t, w0.querySelector (targetSelector w0.trigger.datasetId) = .ok (some t) ∧
      ValidToken w0.self.classNames.toggle ∧ ValidToken w0.self.classNames.init ∧
      w1 = initWorld t w0 :=
  init_inv w0 w1 h.1 h.2

theorem initialized_live {w0 w1 : World} (h : Initialized w0 w1) : ∃ t, Live t w1 := by
  obtain ⟨t, _, hv, _, rfl⟩ := initialized_inv h
  exact ⟨t, initWorld_live t _ hv⟩

theorem run_append (a b : List Action) (w : World) :
    run (a ++ b) w = match run a w with
      | .error e => .error e
      | .ok w1 => run b w1 := by
  induction a generalizing w with
  | nil => rfl
  | cons x rest ih =>
    simp only [List.cons_append, run]
    cases x.step w with
    | error e => rfl
    | ok w1 => exact ih w1

theorem turned_lockstep (t : NodeId) (w w' : World)
    (h : TurnedOn t w w' ∨ TurnedOff t w w') :
    (w'.hasToggled w'.self.element = true ↔ w'.hasToggled t = true) := by
  rcases h with ⟨_, _, a, b, _⟩ | ⟨_, _, a, b, _⟩ <;> rw [a, b]

/-- A live controller reached from an initialized one by any actions. -/
theorem reached_live {w0 w1 w : World} (h : Initialized w0 w1) {acts : List Action}
    (hr : run acts w1 = .ok w) : ∃ t, Live t w ∧ Moved t w1 w := by
  obtain ⟨t, hl⟩ := initialized_live h
  obtain ⟨w', hw, hm⟩ := run_moved t acts w1 hl
  rw [hr] at hw
  cases Except.ok.inj hw
  exact ⟨t, live_of_moved hl hm, hm⟩

theorem aria_moved (t : NodeId) (w w' : World) (hm : Moved t w w')
    (ha : w.ariaExpanded = some (if Toggle.isToggled w then "true" else "false")) :
    w'.ariaExpanded = some (if Toggle.isToggled w' then "true" else "false") := by
  rcases hm with rfl | ⟨_, _, a, _, c⟩ | ⟨_, _, a, _, c⟩
  · exact ha
  · rw [isToggled_eq, a, c]; rfl
  · rw [isToggled_eq, a, c]; rfl

/-- With no listener registered, every sequence of events returns the same world. -/
theorem quiet_dispatch (w : World) (hc : ∀ n, w.elementClick n = [])
    (hk : w.documentKeyup = []) (hd : w.documentClick = [])
    (events : List (MouseEvent ⊕ KeyboardEvent)) :
    run (events.map Action.ofEvent) w = .ok w := by
  have hf : w.elementClick = fun _ => [] := funext hc
  induction events with
  | nil => rfl
  | cons e rest ih =>
    cases e with
    | inl event =>
      have : dispatchClick event w = .ok w := by
        unfold dispatchClick
        rw [hd, hf]
        simp [runListeners]
      simp only [List.map_cons, run, Action.ofEvent, Action.step, this, ih]
    | inr event =>
      have : dispatchKeyup event w = .ok w := by
        unfold dispatchKeyup
        rw [hk]
        rfl
      simp only [List.map_cons, run, Action.ofEvent, Action.step, this, ih]

/-- After `addEvents` on a world without listeners, `removeEvents` removes
every listener again, whatever the options. -/
theorem removeEvents_after_addEvents (s w : World)
    (h0 : s.elementClick = fun _ => []) (h1 : s.documentKeyup = []) (h2 : s.documentClick = [])
    (hs : w.self = (Toggle.addEvents s).self)
    (hc : w.elementClick = (Toggle.addEvents s).elementClick)
    (hk : w.documentKeyup = (Toggle.addEvents s).documentKeyup)
    (hd : w.documentClick = (Toggle.addEvents s).documentClick) :
    ∃ r, Toggle.removeEvents w = .ok r ∧ (∀ n, r.elementClick n = []) ∧
      r.documentKeyup = [] ∧ r.documentClick = [] ∧ r.self = w.self ∧
      r.elements = w.elements := by
  unfold Toggle.removeEvents
  unfold Toggle.addEvents escPress clickOutside at hs hc hk hd
  simp only [h0, h1, h2] at hs hc hk hd
  cases hE : s.self.options.escPress <;> cases hC : s.self.options.clickOutside <;>
    simp only [hE, hC, if_true, if_false, Bool.false_eq_true] at hs hc hk hd <;>
    simp only [hs, hc, hk, hd, hE, hC, if_true, if_false, Bool.false_eq_true] <;>
    refine ⟨_, rfl, ?_, ?_, ?_, ?_, ?_⟩ <;>
    (try simp [addEventListener, removeEventListener, hs]) <;>
    (try (intro n; split_ifs <;> simp))

theorem setupWorld_frame (t : NodeId) (w : World) : Frame w (setupWorld t w) := by
  rcases setupWorld_spec t w with ⟨_, h⟩ | ⟨_, h⟩
  · exact h.1
  · exact h.1

/-- With distinct class names the trigger of an initialized controller keeps
the initialized marker through every action. -/
theorem reached_hasInit {w0 w1 w : World} (h : Initialized w0 w1)
    (hne : w0.self.classNames.init ≠ w0.self.classNames.toggle)
    {acts : List Action} (hr : run acts w1 = .ok w) : w.hasInit = true := by
  obtain ⟨t, _, hm⟩ := reached_live h hr
  obtain ⟨t', _, _, _, rfl⟩ := initialized_inv h
  have hf := moved_frame hm
  have hk := moved_keeps hm (initWorld t' w0).self.element w0.self.classNames.init
    (by rw [initWorld_self_classNames]; exact hne)
  have hI := initWorld_hasInit t' w0
  unfold World.hasInit World.trigger at hI
  rw [initWorld_self_classNames] at hI
  unfold World.hasInit World.trigger
  rw [hf.1, initWorld_self_classNames]
  exact hk.trans hI

/-- The constructor initializes exactly when the trigger lacks the initialized
marker, the selector finds a target and both class names are valid tokens. -/
theorem new_initializes_iff (doc : Document) (element : NodeId) (options : OptionsArg)
    (classNames : ClassNamesArg) :
    (∃ w1, Initialized (Toggle.fields doc element options classNames) w1 ∧
        Toggle.new doc element options classNames = .ok w1) ↔
    (DOMTokenList.contains (doc.elements element).classList
        (classNames.init.getD "is-init-toggle") = false ∧
      (∃ t, doc.querySelector (targetSelector (doc.elements element).datasetId) = .ok (some t)) ∧
      ValidToken (classNames.toggle.getD "is-toggled") ∧
      ValidToken (classNames.init.getD "is-init-toggle")) := by
  constructor
  · rintro ⟨w1, h, _⟩
    obtain ⟨t, hq, hv, hvi, _⟩ := initialized_inv h
    exact ⟨h.1, ⟨t, hq⟩, hv, hvi⟩
  · rintro ⟨hni, ⟨t, hq⟩, hv, hvi⟩
    have := init_eq t (Toggle.fields doc element options classNames) hni hq hv hvi
    exact ⟨_, ⟨hni, this⟩, this⟩

/-! ## The claims about the controller -/

/-- C1. Lock-step: for every initialized controller (any options, any class
names, target found), after any actions and then after each call of a
sequence of `toggle()` calls, the call returns and the trigger carries the
configured toggled class if and only if the target does. -/
theorem toggle_keeps_lockstep (w0 w1 : World) (h : Initialized w0 w1)
    (before : List Action) (n : Nat) :
    ∃ t w2, w1.self.targetElement = some t ∧
      run (before ++ List.replicate (n + 1) Action.toggle) w1 = .ok w2 ∧
      w2.self.targetElement = some t ∧
      (w2.hasToggled w2.self.element = true ↔ w2.hasToggled t = true) := by
  obtain ⟨t, hl⟩ := initialized_live h
  obtain ⟨w, hw, hm⟩ := run_moved t (before ++ List.replicate n Action.toggle) w1 hl
  have hlw := live_of_moved hl hm
  obtain ⟨w2, h2, hs⟩ := toggle_live t w hlw
  refine ⟨t, w2, hl.1, ?_, ?_, ?_⟩
  · have e : before ++ List.replicate (n + 1) Action.toggle
        = (before ++ List.replicate n Action.toggle) ++ [Action.toggle] := by
      rw [List.append_assoc, List.replicate_succ']
    rw [e, run_append, hw]
    simp only [run, Action.step, h2]
  · have : Live t w2 := by
      rcases hs with ⟨_, hs⟩ | ⟨_, hs⟩
      · exact live_of_frame hlw hs.1
      · exact live_of_frame hlw hs.1
    exact this.1
  · rcases hs with ⟨_, hs⟩ | ⟨_, hs⟩
    · exact turned_lockstep t w w2 (Or.inr hs)
    · exact turned_lockstep t w w2 (Or.inl hs)

/-- The lock-step theorem on the demo page: an outside click, then three `toggle()` calls. -/
theorem toggle_keeps_lockstep_demo :
    Initialized demoFresh demoWorld ∧
    ∃ t w2, demoWorld.self.targetElement = some t ∧
      run ([Action.click ⟨Node.root 5⟩] ++ List.replicate (2 + 1) Action.toggle) demoWorld
        = .ok w2 ∧
      w2.self.targetElement = some t ∧
      (w2.hasToggled w2.self.element = true ↔ w2.hasToggled t = true) :=
  ⟨⟨rfl, rfl⟩,
    toggle_keeps_lockstep demoFresh demoWorld ⟨rfl, rfl⟩ [Action.click ⟨Node.root 5⟩] 2⟩

/-- C8. Idempotence: in every state `w` an initialized controller reaches,
`toggleOn()` returns a state on which a second `toggleOn()` changes nothing,
and likewise `toggleOff()`; so two calls in a row give the same world (all
classes and attributes of trigger and target included) as one. -/
theorem toggleOn_toggleOff_idempotent (w0 w1 w : World) (h : Initialized w0 w1)
    (acts : List Action) (hr : run acts w1 = .ok w) :
    (∃ w', Toggle.toggleOn w false = .ok w' ∧ Toggle.toggleOn w' false = .ok w' ∧
      run [Action.toggleOn false, Action.toggleOn false] w = run [Action.toggleOn false] w) ∧
    (∃ w', Toggle.toggleOff w false = .ok w' ∧ Toggle.toggleOff w' false = .ok w' ∧
      run [Action.toggleOff false, Action.toggleOff false] w = run [Action.toggleOff false] w) := by
  obtain ⟨t, hl, _⟩ := reached_live h hr
  constructor
  · obtain ⟨w', h1, h2⟩ := toggleOn_live t w hl false
    have on' : Toggle.isToggled w' = true := by
      rcases h2 with ⟨a, _, rfl⟩ | ⟨_, _, _, a, _⟩
      · exact a
      · exact a
    have again : Toggle.toggleOn w' false = .ok w' := by
      unfold Toggle.toggleOn
      rw [if_pos (by simp [on'])]
    refine ⟨w', h1, again, ?_⟩
    simp only [run, Action.step, h1, again]
  · obtain ⟨w', h1, h2⟩ := toggleOff_live t w hl false
    have off' : Toggle.isToggled w' = false := by
      rcases h2 with ⟨a, _, rfl⟩ | ⟨_, _, _, a, _⟩
      · exact a
      · exact a
    have again : Toggle.toggleOff w' false = .ok w' := by
      unfold Toggle.toggleOff
      rw [if_pos (by simp [off'])]
    refine ⟨w', h1, again, ?_⟩
    simp only [run, Action.step, h1, again]

/-- The idempotence theorem on the demo page, in the state after one `toggle()`. -/
theorem toggleOn_toggleOff_idempotent_demo :
    (Initialized demoFresh demoWorld ∧
      run [Action.toggle] demoWorld = .ok (markOn 1 demoWorld)) ∧
    ((∃ w', Toggle.toggleOn (markOn 1 demoWorld) false = .ok w' ∧
        Toggle.toggleOn w' false = .ok w' ∧
        run [Action.toggleOn false, Action.toggleOn false] (markOn 1 demoWorld)
          = run [Action.toggleOn false] (markOn 1 demoWorld)) ∧
     (∃ w', Toggle.toggleOff (markOn 1 demoWorld) false = .ok w' ∧
        Toggle.toggleOff w' false = .ok w' ∧
        run [Action.toggleOff false, Action.toggleOff false] (markOn 1 demoWorld)
          = run [Action.toggleOff false] (markOn 1 demoWorld))) :=
  ⟨⟨⟨rfl, rfl⟩, rfl⟩,
    toggleOn_toggleOff_idempotent demoFresh demoWorld (markOn 1 demoWorld) ⟨rfl, rfl⟩
      [Action.toggle] rfl⟩

/-- C9. In every state `w` an initialized controller reaches, `toggle()`
returns and `isToggled()` after it is the negation of `isToggled()` before
it; a second `toggle()` returns too and restores the original value. -/
theorem toggle_flips (w0 w1 w : World) (h : Initialized w0 w1) (acts : List Action)
    (hr : run acts w1 = .ok w) :
    ∃ w' w'', Toggle.toggle w = .ok w' ∧ Toggle.isToggled w' = !Toggle.isToggled w ∧
      Toggle.toggle w' = .ok w'' ∧ Toggle.isToggled w'' = Toggle.isToggled w := by
  obtain ⟨t, hl, _⟩ := reached_live h hr
  have flip : ∀ v, Live t v →
      ∃ v', Toggle.toggle v = .ok v' ∧ Live t v' ∧ Toggle.isToggled v' = !Toggle.isToggled v := by
    intro v hv
    obtain ⟨v', h1, h2⟩ := toggle_live t v hv
    refine ⟨v', h1, ?_, ?_⟩
    · rcases h2 with ⟨_, hs⟩ | ⟨_, hs⟩
      · exact live_of_frame hv hs.1
      · exact live_of_frame hv hs.1
    · rcases h2 with ⟨a, _, _, b, _⟩ | ⟨a, _, _, b, _⟩
      · rw [isToggled_eq, b, a]; rfl
      · rw [isToggled_eq, b, a]; rfl
  obtain ⟨w', a1, l1, f1⟩ := flip w hl
  obtain ⟨w'', a2, _, f2⟩ := flip w' l1
  exact ⟨w', w'', a1, f1, a2, by rw [f2, f1]; simp⟩

/-- The flip theorem on the demo page, in the state after an Escape key release. -/
theorem toggle_flips_demo :
    (Initialized demoFresh demoWorld ∧
      run [Action.keyup ⟨"Escape"⟩] demoWorld = .ok demoWorld) ∧
    ∃ w' w'', Toggle.toggle demoWorld = .ok w' ∧
      Toggle.isToggled w' = !Toggle.isToggled demoWorld ∧
      Toggle.toggle w' = .ok w'' ∧ Toggle.isToggled w'' = Toggle.isToggled demoWorld :=
  ⟨⟨⟨rfl, rfl⟩, rfl⟩,
    toggle_flips demoFresh demoWorld demoWorld ⟨rfl, rfl⟩ [Action.keyup ⟨"Escape"⟩] rfl⟩

/-- C10, as the code has it: with an initialized-marker name different from
the toggled-marker name, right after `init` initialized the controller and
after every further sequence of `toggle()`, `toggleOn(force)`,
`toggleOff(force)` calls (and events), the trigger's `aria-expanded` is
`"true"` when the trigger carries the toggled marker and `"false"` when not. -/
theorem aria_expanded_reflects_state (w0 w1 : World) (h : Initialized w0 w1)
    (hne : w0.self.classNames.init ≠ w0.self.classNames.toggle) (acts : List Action) :
    ∃ w, run acts w1 = .ok w ∧
      w.ariaExpanded = some (if Toggle.isToggled w then "true" else "false") := by
  obtain ⟨t, _, hv, _, rfl⟩ := initialized_inv h
  have hl := initWorld_live t w0 hv
  obtain ⟨w, hw, hm⟩ := run_moved t acts _ hl
  refine ⟨w, hw, aria_moved t _ w hm ?_⟩
  obtain ⟨a, _, c⟩ := initWorld_state t w0 hne
  rw [a, c]

/-- The `aria-expanded` theorem on the demo page, after three method calls. -/
theorem aria_expanded_reflects_state_demo :
    (Initialized demoFresh demoWorld ∧
      demoFresh.self.classNames.init ≠ demoFresh.self.classNames.toggle) ∧
    ∃ w, run [Action.toggleOn true, Action.toggle, Action.toggleOff false] demoWorld = .ok w ∧
      w.ariaExpanded = some (if Toggle.isToggled w then "true" else "false") :=
  ⟨⟨⟨rfl, rfl⟩, by decide⟩,
    aria_expanded_reflects_state demoFresh demoWorld ⟨rfl, rfl⟩ (by decide)
      [Action.toggleOn true, Action.toggle, Action.toggleOff false]⟩

/-- C10 fails as stated for every class-name map: with `init` and `toggle`
both named `x`, on a trigger that carried neither, the constructor leaves
`aria-expanded="false"` on a trigger that carries the toggled marker `x`. -/
theorem aria_expanded_same_names_counterexample :
    (Toggle.fields demoDocument 0 {} { init := some "x", toggle := some "x" }).hasInit = false ∧
    (Toggle.new demoDocument 0 {} { init := some "x", toggle := some "x" }).map
      (fun w => (w.ariaExpanded, w.hasToggled w.self.element)) = .ok (some "false", true) :=
  ⟨rfl, rfl⟩

/-- C3, as the code has it: with an initialized-marker name different from
the toggled-marker name, right after `init` initialized the controller
`isToggled()` is what it was on the markup before the call (the trigger
carried the toggled marker or not), and the target carries the toggled marker
exactly in that case: On when the markup carried the marker, Off otherwise. -/
theorem init_state_follows_markup (w0 w1 : World) (h : Initialized w0 w1)
    (hne : w0.self.classNames.init ≠ w0.self.classNames.toggle) :
    ∃ t, w1.self.targetElement = some t ∧
      Toggle.isToggled w1
        = DOMTokenList.contains (w0.elements w0.self.element).classList
            w0.self.classNames.toggle ∧
      w1.hasToggled t
        = DOMTokenList.contains (w0.elements w0.self.element).classList
            w0.self.classNames.toggle := by
  obtain ⟨t, _, hv, _, rfl⟩ := initialized_inv h
  obtain ⟨a, b, _⟩ := initWorld_state t w0 hne
  exact ⟨t, initWorld_self_targetElement t _, a, b⟩

/-- The initial-state theorem on the demo page with `btn`, which the trigger
carries, as the toggled marker: the controller starts On. -/
theorem init_state_follows_markup_demo :
    (Initialized (Toggle.fields demoDocument 0 {} { toggle := some "btn" })
        (initWorld 1 (Toggle.fields demoDocument 0 {} { toggle := some "btn" })) ∧
      (Toggle.fields demoDocument 0 {} { toggle := some "btn" }).self.classNames.init
        ≠ (Toggle.fields demoDocument 0 {} { toggle := some "btn" }).self.classNames.toggle) ∧
    ∃ t, (initWorld 1 (Toggle.fields demoDocument 0 {} { toggle := some "btn" })).self.targetElement
        = some t ∧
      Toggle.isToggled (initWorld 1 (Toggle.fields demoDocument 0 {} { toggle := some "btn" }))
        = DOMTokenList.contains
            ((Toggle.fields demoDocument 0 {} { toggle := some "btn" }).elements
              (Toggle.fields demoDocument 0 {} { toggle := some "btn" }).self.element).classList
            (Toggle.fields demoDocument 0 {} { toggle := some "btn" }).self.classNames.toggle ∧
      (initWorld 1 (Toggle.fields demoDocument 0 {} { toggle := some "btn" })).hasToggled t
        = DOMTokenList.contains
            ((Toggle.fields demoDocument 0 {} { toggle := some "btn" }).elements
              (Toggle.fields demoDocument 0 {} { toggle := some "btn" }).self.element).classList
            (Toggle.fields demoDocument 0 {} { toggle := some "btn" }).self.classNames.toggle :=
  ⟨⟨⟨rfl, rfl⟩, by decide⟩,
    init_state_follows_markup (Toggle.fields demoDocument 0 {} { toggle := some "btn" }) _
      ⟨rfl, rfl⟩ (by decide)⟩

/-- C3 fails as stated for every class-name map: with `init` and `toggle`
both named `x`, a trigger carrying neither ends with `isToggled()` true
while the target lacks the marker: neither On nor Off. -/
theorem init_state_same_names_counterexample :
    (Toggle.fields demoDocument 0 {} { init := some "x", toggle := some "x" }).hasInit = false ∧
    DOMTokenList.contains (demoDocument.elements 0).classList "x" = false ∧
    (Toggle.new demoDocument 0 {} { init := some "x", toggle := some "x" }).map
      (fun w => (Toggle.isToggled w, w.self.targetElement, w.hasToggled 1))
        = .ok (true, some 1, false) :=
  ⟨rfl, rfl, rfl⟩

/-- C4. On any controller whose trigger carries the initialized marker,
`init()` returns without exception, appends exactly one message made of
`Toggle is already initialized (id): ` and the trigger's data id to the
console, and leaves elements, `this`, all listener lists and everything
else as they were; on any controller whose trigger does not carry it,
`destroy()` does the same with `Toggle is not initialized (id): `. -/
theorem guarded_lifecycle_errors_absorbed (wi wd : World)
    (hi : wi.hasInit = true) (hd : wd.hasInit = false) :
    (∃ w', Toggle.init wi = .ok w' ∧
      w'.console = wi.console ++
        ["Toggle is already initialized (id): " ++ jsString (wi.elements wi.self.element).datasetId] ∧
      w'.elements = wi.elements ∧ w'.self = wi.self ∧ w'.elementClick = wi.elementClick ∧
      w'.documentKeyup = wi.documentKeyup ∧ w'.documentClick = wi.documentClick ∧
      w'.nextClosure = wi.nextClosure ∧ w'.querySelector = wi.querySelector) ∧
    (∃ w', Toggle.destroy wd = .ok w' ∧
      w'.console = wd.console ++
        ["Toggle is not initialized (id): " ++ jsString (wd.elements wd.self.element).datasetId] ∧
      w'.elements = wd.elements ∧ w'.self = wd.self ∧ w'.elementClick = wd.elementClick ∧
      w'.documentKeyup = wd.documentKeyup ∧ w'.documentClick = wd.documentClick ∧
      w'.nextClosure = wd.nextClosure ∧ w'.querySelector = wd.querySelector) := by
  constructor
  · refine ⟨wi.consoleError
      ("Toggle is already initialized (id): " ++ jsString wi.trigger.datasetId),
      ?_, rfl, rfl, rfl, rfl, rfl, rfl, rfl, rfl⟩
    unfold Toggle.init
    rw [if_pos (by unfold World.hasInit at hi; exact hi)]
  · refine ⟨wd.consoleError
      ("Toggle is not initialized (id): " ++ jsString wd.trigger.datasetId),
      ?_, rfl, rfl, rfl, rfl, rfl, rfl, rfl, rfl⟩
    unfold Toggle.destroy
    rw [if_pos (by unfold World.hasInit at hd; simp [hd])]

/-- The guarded calls on the demo page: `init()` after construction, and
`destroy()` before `init` ran. -/
theorem guarded_lifecycle_errors_absorbed_demo :
    (demoWorld.hasInit = true ∧ demoFresh.hasInit = false) ∧
    (∃ w', Toggle.init demoWorld = .ok w' ∧
      w'.console = demoWorld.console ++
        ["Toggle is already initialized (id): "
          ++ jsString (demoWorld.elements demoWorld.self.element).datasetId] ∧
      w'.elements = demoWorld.elements ∧ w'.self = demoWorld.self ∧
      w'.elementClick = demoWorld.elementClick ∧
      w'.documentKeyup = demoWorld.documentKeyup ∧ w'.documentClick = demoWorld.documentClick ∧
      w'.nextClosure = demoWorld.nextClosure ∧ w'.querySelector = demoWorld.querySelector) ∧
    (∃ w', Toggle.destroy demoFresh = .ok w' ∧
      w'.console = demoFresh.console ++
        ["Toggle is not initialized (id): "
          ++ jsString (demoFresh.elements
                demoFresh.self.element).datasetId] ∧
      w'.elements = demoFresh.elements ∧
      w'.self = demoFresh.self ∧
      w'.elementClick = demoFresh.elementClick ∧
      w'.documentKeyup = demoFresh.documentKeyup ∧
      w'.documentClick = demoFresh.documentClick ∧
      w'.nextClosure = demoFresh.nextClosure ∧
      w'.querySelector = demoFresh.querySelector) :=
  ⟨⟨by decide, by decide⟩,
    guarded_lifecycle_errors_absorbed demoWorld demoFresh
      (by decide) (by decide)⟩


/-- C5, as the code has it: for a controller initialized, with any options,
in a document where none of its listeners was registered (the constructor's
case), in any state `w2` it reaches, when the two class names differ or the
trigger still carries the initialized marker, `destroy()` returns a world in
which no click listener is left on any element and no `keyup` or `click`
listener on `document`; every sequence of clicks and key releases
dispatched afterwards returns the very same world: no class and no
attribute of trigger or target changes. -/
theorem destroy_unregisters_listeners (w0 w1 w2 : World) (h : Initialized w0 w1)
    (hc0 : w0.elementClick = fun _ => []) (hk0 : w0.documentKeyup = [])
    (hd0 : w0.documentClick = []) (acts : List Action)
    (hr : run acts w1 = .ok w2)
    (hi : w0.self.classNames.init ≠ w0.self.classNames.toggle ∨ w2.hasInit = true) :
    ∃ w3, Toggle.destroy w2 = .ok w3 ∧
      (∀ n, w3.elementClick n = []) ∧ w3.documentKeyup = [] ∧ w3.documentClick = [] ∧
      ∀ events : List (MouseEvent ⊕ KeyboardEvent),
        run (events.map Action.ofEvent) w3 = .ok w3 := by
  have hi : w2.hasInit = true := by
    rcases hi with hne | hi
    · exact reached_hasInit h hne hr
    · exact hi
  obtain ⟨t, _, hm⟩ := reached_live h hr
  obtain ⟨t', _, _, hvi, rfl⟩ := initialized_inv h
  have hf := moved_frame hm
  have hs0 := setupWorld_frame t' (w0.setTargetElement (some t'))
  obtain ⟨r, hr1, rc, rk, rd, rs, _⟩ := removeEvents_after_addEvents
    (setupWorld t' (w0.setTargetElement (some t'))) w2
    (by rw [hs0.2.2.1]; exact hc0) (by rw [hs0.2.2.2.1]; exact hk0)
    (by rw [hs0.2.2.2.2.1]; exact hd0)
    hf.1 hf.2.2.1 hf.2.2.2.1 hf.2.2.2.2.1
  have hv : ValidToken (r.setTargetElement none).self.classNames.init := by
    have e : (r.setTargetElement none).self.classNames = r.self.classNames := rfl
    rw [e, rs, hf.1, initWorld_self_classNames]
    exact hvi
  refine ⟨(r.setTargetElement none).withClassList (r.setTargetElement none).self.element
    (eraseToken (r.setTargetElement none).self.classNames.init), ?_, rc, rk, rd, ?_⟩
  · unfold Toggle.destroy
    rw [if_neg (by unfold World.hasInit at hi; simp [hi]), hr1]
    simp only []
    rw [classListRemove_valid _ _ _ hv]
  · intro events
    refine quiet_dispatch _ ?_ ?_ ?_ events
    · exact rc
    · exact rk
    · exact rd

/-- The teardown theorem on the demo page, constructed with `clickOutside: false`
and toggled once before `destroy()`. -/
theorem destroy_unregisters_listeners_demo :
    (Initialized (Toggle.fields demoDocument 0 { clickOutside := some false } {})
        (initWorld 1 (Toggle.fields demoDocument 0 { clickOutside := some false } {})) ∧
      ((Toggle.fields demoDocument 0 { clickOutside := some false } {}).elementClick
        = fun _ => []) ∧
      (Toggle.fields demoDocument 0 { clickOutside := some false } {}).documentKeyup = [] ∧
      (Toggle.fields demoDocument 0 { clickOutside := some false } {}).documentClick = [] ∧
      run [Action.toggle]
          (initWorld 1 (Toggle.fields demoDocument 0 { clickOutside := some false } {}))
        = .ok (markOn 1
            (initWorld 1 (Toggle.fields demoDocument 0 { clickOutside := some false } {}))) ∧
      ((Toggle.fields demoDocument 0 { clickOutside := some false } {}).self.classNames.init
          ≠ (Toggle.fields demoDocument 0 { clickOutside := some false } {}).self.classNames.toggle ∨
        (markOn 1
          (initWorld 1 (Toggle.fields demoDocument 0 { clickOutside := some false } {}))).hasInit
          = true)) ∧
    ∃ w3, Toggle.destroy (markOn 1
        (initWorld 1 (Toggle.fields demoDocument 0 { clickOutside := some false } {}))) = .ok w3 ∧
      (∀ n, w3.elementClick n = []) ∧ w3.documentKeyup = [] ∧ w3.documentClick = [] ∧
      ∀ events : List (MouseEvent ⊕ KeyboardEvent),
        run (events.map Action.ofEvent) w3 = .ok w3 :=
  ⟨⟨⟨rfl, rfl⟩, rfl, rfl, rfl, rfl, Or.inr (by decide)⟩,
    destroy_unregisters_listeners (Toggle.fields demoDocument 0 { clickOutside := some false } {})
      _ _ ⟨rfl, rfl⟩ rfl rfl rfl [Action.toggle] rfl (Or.inr (by decide))⟩

/-- C5 fails as stated for every initialized controller: with `init` and
`toggle` both named `x`, after `new Toggle(...)` and one `toggle()` the
trigger has lost `x`, so `destroy()` stops at its guard with the message
`Toggle is not initialized (id): panel-1` and all three listeners stay
registered; a click on the trigger then turns the controller On and an
Escape key release after that turns it Off again. -/
theorem destroy_same_names_counterexample :
    (Toggle.fields demoDocument 0 {} { init := some "x", toggle := some "x" }).hasInit = false ∧
    Except.bind (Toggle.new demoDocument 0 {} { init := some "x", toggle := some "x" })
      (fun w1 => Except.bind (Toggle.toggle w1)
        (fun w2 => Except.bind (Toggle.destroy w2)
          (fun w3 => Except.bind (dispatchClick ⟨Node.root 0⟩ w3)
            (fun w4 => Except.map
              (fun w5 =>
                (w3.console, w3.elementClick 0, w3.documentKeyup, w3.documentClick,
                  w4.hasToggled 0, w4.hasToggled 1, w4.ariaExpanded,
                  w5.hasToggled 0, w5.hasToggled 1, w5.ariaExpanded))
              (dispatchKeyup ⟨"Escape"⟩ w4)))))
      = .ok (["Toggle is not initialized (id): panel-1"],
          [ClickListener.boundToggle],
          [KeyupListener.escPressFn 0 Method.toggleOff],
          [ClickListener.clickOutsideFn 1 [some 0, some 1] Method.toggleOff],
          true, true, some "true",
          false, false, some "false") :=
  ⟨rfl, rfl⟩

theorem addEvents_defaults (s : World) (h0 : s.elementClick = fun _ => [])
    (h1 : s.documentKeyup = []) (h2 : s.documentClick = []) (hn : s.nextClosure = 0)
    (hE : s.self.options.escPress = true) (hC : s.self.options.clickOutside = true) :
    (Toggle.addEvents s).elementClick
        = (fun n => if n = s.self.element then [ClickListener.boundToggle] else []) ∧
    (Toggle.addEvents s).documentKeyup = [KeyupListener.escPressFn 0 Method.toggleOff] ∧
    (Toggle.addEvents s).documentClick
        = [ClickListener.clickOutsideFn 1 [some s.self.element, s.self.targetElement]
            Method.toggleOff] := by
  unfold Toggle.addEvents escPress clickOutside
  simp only [h0, h1, h2, hn, hE, hC, if_true]
  refine ⟨?_, ?_, ?_⟩ <;> simp [addEventListener]

theorem flatten_no_trigger (element : NodeId) (l : List NodeId) (h : element ∉ l) :
    (l.map (fun n => if n = element then [ClickListener.boundToggle] else [])).flatten = [] := by
  induction l with
  | nil => rfl
  | cons a rest ih =>
    have h1 : a ≠ element := fun e => h (by rw [e]; exact List.mem_cons_self _ _)
    have h2 : element ∉ rest := fun e => h (List.mem_cons_of_mem _ e)
    simp [h1, ih h2]

theorem chain_listeners (element : NodeId) (target : Node) (he : target.ident = element)
    (hn : target.chain.Nodup) :
    (target.chain.map (fun n => if n = element then [ClickListener.boundToggle] else [])).flatten
      = [ClickListener.boundToggle] := by
  cases target with
  | root i =>
    simp only [Node.ident] at he
    simp [Node.chain, he]
  | child i p =>
    simp only [Node.ident] at he
    simp only [Node.chain, List.nodup_cons] at hn
    subst he
    simp [Node.chain, flatten_no_trigger i p.chain hn.1]

theorem walk_of_ident (elements : List (Option NodeId)) (target : Node)
    (h : some target.ident ∈ elements) : clickOutside.walk elements target = true := by
  rw [walk_iff]
  refine ⟨target.ident, ?_, h⟩
  cases target <;> simp [Node.chain, Node.ident]

/-- C2. The end-to-end scenario with default options and default class
names, for every document in which the selector finds a target `t`, the
trigger lacks `is-toggled` and has not been initialized (the target may even
carry `is-toggled`; `setup` removes it): the constructor returns with `aria-expanded="false"` and no toggled marker; a
click whose target is the trigger (run through the trigger's click listener
and then the click listeners of `document`) leaves both with the marker and
`aria-expanded="true"`; a key release with code `Escape` then leaves both
without it and `aria-expanded="false"`. -/
theorem click_then_escape_scenario (doc : Document) (element t : NodeId) (event : MouseEvent)
    (hq : doc.querySelector (targetSelector (doc.elements element).datasetId) = .ok (some t))
    (hnt : DOMTokenList.contains (doc.elements element).classList "is-toggled" = false)
    (hni : DOMTokenList.contains (doc.elements element).classList "is-init-toggle" = false)
    (he : event.target.ident = element) (hn : event.target.chain.Nodup) :
    ∃ w1 w2 w3,
      Toggle.new doc element {} {} = .ok w1 ∧
      w1.ariaExpanded = some "false" ∧ w1.hasToggled element = false ∧ w1.hasToggled t = false ∧
      dispatchClick event w1 = .ok w2 ∧
      w2.hasToggled element = true ∧ w2.hasToggled t = true ∧ w2.ariaExpanded = some "true" ∧
      dispatchKeyup ⟨"Escape"⟩ w2 = .ok w3 ∧
      w3.hasToggled element = false ∧ w3.hasToggled t = false ∧
      w3.ariaExpanded = some "false" := by
  have hv : ValidToken (Toggle.fields doc element {} {}).self.classNames.toggle := rfl
  have hvi : ValidToken (Toggle.fields doc element {} {}).self.classNames.init := rfl
  have hnew := init_eq t (Toggle.fields doc element {} {}) hni hq hv hvi
  obtain ⟨s1, s2, s3⟩ := initWorld_state t (Toggle.fields doc element {} {})
    (show "is-init-toggle" ≠ "is-toggled" by decide)
  have hpre : Toggle.isToggled (Toggle.fields doc element {} {}) = false := hnt
  rw [hpre] at s1 s2 s3
  have hl := initWorld_live t (Toggle.fields doc element {} {}) hv
  have hs0 := setupWorld_frame t ((Toggle.fields doc element {} {}).setTargetElement (some t))
  obtain ⟨r1, r2, r3⟩ := addEvents_defaults
    (setupWorld t ((Toggle.fields doc element {} {}).setTargetElement (some t)))
    (by rw [hs0.2.2.1]; rfl) (by rw [hs0.2.2.2.1]; rfl) (by rw [hs0.2.2.2.2.1]; rfl)
    (by rw [hs0.2.2.2.2.2.2]; rfl) (by rw [hs0.1]; rfl) (by rw [hs0.1]; rfl)
  rw [hs0.1] at r1 r3
  -- the click
  have hon := toggleOn_eq t _ hl false (by rw [s1]; rfl)
  have htog : Toggle.toggle (initWorld t (Toggle.fields doc element {} {}))
      = .ok (markOn t (initWorld t (Toggle.fields doc element {} {}))) := by
    unfold Toggle.toggle
    rw [if_neg (by rw [s1]; simp)]
    exact hon
  obtain ⟨_, _, o1, o2, o3⟩ := markOn_spec t (initWorld t (Toggle.fields doc element {} {}))
  have hclick : dispatchClick event (initWorld t (Toggle.fields doc element {} {}))
      = .ok (markOn t (initWorld t (Toggle.fields doc element {} {}))) := by
    unfold dispatchClick
    have e1 : (initWorld t (Toggle.fields doc element {} {})).elementClick
        = (fun n => if n = element then [ClickListener.boundToggle] else []) := r1
    have e3 : (initWorld t (Toggle.fields doc element {} {})).documentClick
        = [ClickListener.clickOutsideFn 1 [some element, some t] Method.toggleOff] := r3
    rw [e1, e3, chain_listeners element event.target he hn]
    simp only [List.singleton_append, runListeners, ClickListener.handle, htog, clickOutside.fn]
    rw [walk_of_ident _ _ (by rw [he]; simp)]
    rfl
  -- the key release
  have hl2 := live_of_frame hl (markOn_spec t (initWorld t (Toggle.fields doc element {} {}))).1
  have hoff := toggleOff_eq t _ hl2 false (by rw [isToggled_eq, o1]; rfl)
  obtain ⟨_, _, f1, f2, f3⟩ := markOff_spec t (markOn t (initWorld t (Toggle.fields doc element {} {})))
  have hkey : dispatchKeyup ⟨"Escape"⟩ (markOn t (initWorld t (Toggle.fields doc element {} {})))
      = .ok (markOff t (markOn t (initWorld t (Toggle.fields doc element {} {})))) := by
    unfold dispatchKeyup
    have e2 : (markOn t (initWorld t (Toggle.fields doc element {} {}))).documentKeyup
        = [KeyupListener.escPressFn 0 Method.toggleOff] := r2
    rw [e2]
    simp only [runListeners, KeyupListener.handle, escPress.fn, Method.call, hoff]
    rw [if_neg (by decide)]
  have el1 : (initWorld t (Toggle.fields doc element {} {})).self.element = element :=
    initWorld_self_element t _
  refine ⟨_, _, _, hnew, s3, ?_, s2, hclick, ?_, o2, o3, hkey, ?_, f2, f3⟩
  · rw [← s1, isToggled_eq, el1]
  · rw [← o1, markOn_self, el1]
  · rw [← f1, markOff_self, markOn_self, el1]

/-- The scenario on the demo page, the click landing on the trigger inside two ancestors. -/
theorem click_then_escape_scenario_demo :
    (demoDocument.querySelector (targetSelector (demoDocument.elements 0).datasetId) = .ok (some 1) ∧
      DOMTokenList.contains (demoDocument.elements 0).classList "is-toggled" = false ∧
      DOMTokenList.contains (demoDocument.elements 1).classList "is-toggled" = false ∧
      DOMTokenList.contains (demoDocument.elements 0).classList "is-init-toggle" = false ∧
      (Node.child 0 (Node.child 7 (Node.root 9))).ident = 0 ∧
      (Node.child 0 (Node.child 7 (Node.root 9))).chain.Nodup) ∧
    ∃ w1 w2 w3,
      Toggle.new demoDocument 0 {} {} = .ok w1 ∧
      w1.ariaExpanded = some "false" ∧ w1.hasToggled 0 = false ∧ w1.hasToggled 1 = false ∧
      dispatchClick ⟨Node.child 0 (Node.child 7 (Node.root 9))⟩ w1 = .ok w2 ∧
      w2.hasToggled 0 = true ∧ w2.hasToggled 1 = true ∧ w2.ariaExpanded = some "true" ∧
      dispatchKeyup ⟨"Escape"⟩ w2 = .ok w3 ∧
      w3.hasToggled 0 = false ∧ w3.hasToggled 1 = false ∧
      w3.ariaExpanded = some "false" :=
  ⟨⟨rfl, rfl, rfl, rfl, rfl, by decide⟩,
    click_then_escape_scenario demoDocument 0 1 ⟨Node.child 0 (Node.child 7 (Node.root 9))⟩
      rfl rfl rfl rfl (by decide)⟩

end ToggleJs
